import Mathlib

/-!
Verification of the MCPKerykeion repository (src/src/kerykeion_mcp/core.py and
src/src/kerykeion_mcp/server.py): a shallow embedding of the coordinate
resolver, the chart-computation adapter with its environment sandbox, and the
line-oriented JSON-RPC dispatcher, together with theorems settling the frozen
claims about them.

External collaborators (the kerykeion astrology engine, Python's json/tempfile/
os/shutil standard-library modules, the gazetteer data file) are modelled as
oracles or explicit state: the engine is a record of pure functions, the
process state (working directory, environment variables, directories on disk)
is an explicit `World` threaded through every operation, and each engine
invocation is recorded as a trace event carrying the process state at the
moment of the call.
-/

set_option linter.unusedVariables false

namespace MCPK

/-- JSON values, the model of the Python values flowing through the server
(dicts become ordered field lists, numbers become rationals, Python `None`
becomes `null`). -/
inductive Json where
  | null : Json
  | bool (b : Bool) : Json
  | num (q : Rat) : Json
  | str (s : String) : Json
  | arr (elems : List Json) : Json
  | obj (fields : List (String × Json)) : Json

/-- Python `d.get(k)` on a dict: the first field named `k`, if any.
On a non-dict value Python would raise; callers model that case by matching
on the constructor first. -/
def Json.get : Json → String → Option Json
  | .obj fields, k => fields.lookup k
  | _, _ => none

/-- Python `d.get(k, default)`. -/
def Json.getD (j : Json) (k : String) (d : Json) : Json :=
  (j.get k).getD d

/-- Python `v == "s"` for a string literal: true exactly on the equal string. -/
def Json.eqStr : Json → String → Bool
  | .str s, t => s = t
  | _, _ => false

/-- Python truthiness of the values this code tests with `if x:`. -/
def Json.truthy : Json → Bool
  | .null => false
  | .bool b => b
  | .num q => q ≠ 0
  | .str s => s ≠ ""
  | .arr xs => !xs.isEmpty
  | .obj fs => !fs.isEmpty

mutual

/-- Model of Python `json.dumps(..., ensure_ascii=False)` (an external
standard-library function): one definite rendering of a JSON value. The
claims only ever compare a produced text with the rendering of the same
value, so the exact layout (Python indents with `indent=2`) is immaterial. -/
def Json.dumps : Json → String
  | .null => "null"
  | .bool b => if b then "true" else "false"
  | .num q => if q.den = 1 then toString q.num else toString q.num ++ "/" ++ toString q.den
  | .str s => "\"" ++ s ++ "\""
  | .arr xs => "[" ++ Json.dumpsArr xs ++ "]"
  | .obj fs => "\x7b" ++ Json.dumpsObj fs ++ "\x7d"

def Json.dumpsArr : List Json → String
  | [] => ""
  | [x] => Json.dumps x
  | x :: y :: rest => Json.dumps x ++ ", " ++ Json.dumpsArr (y :: rest)

def Json.dumpsObj : List (String × Json) → String
  | [] => ""
  | [(k, v)] => "\"" ++ k ++ "\": " ++ Json.dumps v
  | (k, v) :: f :: rest => "\"" ++ k ++ "\": " ++ Json.dumps v ++ ", " ++ Json.dumpsObj (f :: rest)

end

/-- A crude rendering of a Python value into an f-string (used only for the
unknown-tool message `f"未知工具: {tool_name}"`). -/
def Json.pyStr : Json → String
  | .null => "None"
  | .bool b => if b then "True" else "False"
  | .num q => if q.den = 1 then toString q.num else toString q.num ++ "/" ++ toString q.den
  | .str s => s
  | .arr _ => "[...]"
  | .obj _ => "..."

/-! ## Python's substring test

`needle in hay` for strings. `find_city_coordinates` relies on it for the
fuzzy pass; note that in Python the empty string is a substring of every
string. -/

/-- `subList n h = true` iff the list `n` occurs contiguously inside `h`
(Python's `in` on the underlying character lists). -/
def subList (n : List Char) : List Char → Bool
  | [] => n.isEmpty
  | c :: t => n.isPrefixOf (c :: t) || subList n t

/-- Python `needle in hay` on strings. -/
def pyIn (needle hay : String) : Bool :=
  subList needle.toList hay.toList

theorem subList_iff_infix (n h : List Char) : subList n h = true ↔ n <:+: h := by
  induction h with
  | nil => simp [subList, List.isEmpty_iff, List.infix_nil]
  | cons c t ih =>
    simp only [subList, Bool.or_eq_true, ih, List.infix_cons_iff,
      List.isPrefixOf_iff_prefix]

/-- The empty string is a Python-substring of every string. -/
theorem pyIn_empty (s : String) : pyIn "" s = true := by
  rw [pyIn, subList_iff_infix]
  exact List.nil_infix

/-- A string is a Python-substring of any concatenation around it. -/
theorem pyIn_append (pre mid suf : String) : pyIn mid (pre ++ mid ++ suf) = true := by
  rw [pyIn, subList_iff_infix]
  refine ⟨pre.toList, suf.toList, ?_⟩
  simp [String.toList, String.data_append]

/-! ## The coordinate resolver (core.py, `find_city_coordinates`)

The gazetteer (the external `china_cities.json` data file, loaded by
`load_china_cities`; a load failure degrades to the empty mapping) is a
province → city → (latitude, longitude) table, modelled as an ordered
association list since Python dicts iterate in insertion order. -/

/-- province → list of (city, (latitude, longitude)). -/
abbrev Gaz := List (String × List (String × Rat × Rat))

/-- First pass of `find_city_coordinates`: exact key match of the query
within any province's city mapping, in iteration order. -/
def exactPass : Gaz → String → Option (Rat × Rat)
  | [], _ => none
  | (_, cities) :: rest, q =>
    match cities.lookup q with
    | some c => some c
    | none => exactPass rest q

/-- The fuzzy scan of one province's cities: first city whose name contains
the query or is contained in it. -/
def fuzzyCities : List (String × Rat × Rat) → String → Option (Rat × Rat)
  | [], _ => none
  | (city, c) :: rest, q =>
    if pyIn q city || pyIn city q then some c else fuzzyCities rest q

/-- Second pass of `find_city_coordinates`: fuzzy substring match over every
(province, city) pair in iteration order. -/
def fuzzyPass : Gaz → String → Option (Rat × Rat)
  | [], _ => none
  | (_, cities) :: rest, q =>
    match fuzzyCities cities q with
    | some c => some c
    | none => fuzzyPass rest q

/-- Third pass: the hard-coded alias — a query containing "丰宁" resolves to
承德's coordinate when the gazetteer has it under 河北省. -/
def aliasPass (gaz : Gaz) (q : String) : Option (Rat × Rat) :=
  if pyIn "丰宁" q then
    match gaz.lookup "河北省" with
    | some cities => cities.lookup "承德"
    | none => none
  else none

/-- core.py `find_city_coordinates(city_name, nation)`: for nation "CN",
exact key match, then fuzzy substring match, then the 丰宁 alias; for any
other nation, absent. Python's `(None, None)` return is `none`, a found
`(latitude, longitude)` pair is `some (lat, lng)`. -/
def find_city_coordinates (cityName nation : String) (gaz : Gaz) : Option (Rat × Rat) :=
  if nation = "CN" then
    match exactPass gaz cityName with
    | some c => some c
    | none =>
      match fuzzyPass gaz cityName with
      | some c => some c
      | none => aliasPass gaz cityName
  else none

/-- All (city, coordinate) pairs of the gazetteer in iteration order. -/
def allCities (gaz : Gaz) : List (String × Rat × Rat) :=
  gaz.flatMap Prod.snd

theorem exactPass_eq_lookup (gaz : Gaz) (q : String) :
    exactPass gaz q = (allCities gaz).lookup q := by
  induction gaz with
  | nil => rfl
  | cons p rest ih =>
    obtain ⟨prov, cities⟩ := p
    simp only [exactPass, allCities, List.flatMap_cons, List.lookup_append]
    cases cities.lookup q <;> simp [ih, allCities]

theorem fuzzyCities_eq_find (cities : List (String × Rat × Rat)) (q : String) :
    fuzzyCities cities q =
      (cities.find? fun p => pyIn q p.1 || pyIn p.1 q).map Prod.snd := by
  induction cities with
  | nil => rfl
  | cons p rest ih =>
    obtain ⟨city, c⟩ := p
    by_cases h : (pyIn q city || pyIn city q) = true
    · simp [fuzzyCities, List.find?, h]
    · simp [fuzzyCities, List.find?, h, ih]

theorem fuzzyPass_eq_find (gaz : Gaz) (q : String) :
    fuzzyPass gaz q =
      ((allCities gaz).find? fun p => pyIn q p.1 || pyIn p.1 q).map Prod.snd := by
  induction gaz with
  | nil => rfl
  | cons p rest ih =>
    obtain ⟨prov, cities⟩ := p
    simp only [fuzzyPass, allCities, List.flatMap_cons, List.find?_append,
      fuzzyCities_eq_find]
    cases h : cities.find? fun p => pyIn q p.1 || pyIn p.1 q <;>
      simp [ih, allCities, h]

/-! ## Process state (os / tempfile / shutil, modelled explicitly)

The adapter mutates process-global state: the working directory (`os.chdir`),
environment variables (`os.environ`), and directories on disk (`tempfile.mkdtemp`,
`os.makedirs`, `shutil.rmtree`). `World` carries that state; `mkdtemp` draws the
fresh directory name from a counter (the OS guarantee of uniqueness), and
`rmtreeFails` says for which directories a deletion attempt raises (the
`shutil.rmtree` error the source suppresses). `clock` is the `datetime.now()`
oracle and `gaz` the loaded gazetteer. -/

/-- One `datetime.now()` reading, with the `strftime` renderings the source
asks of it (external library calls). -/
structure ClockReading where
  year : Int
  month : Int
  day : Int
  hour : Int
  minute : Int
  second : Int
  datetimeStr : String
  weekdayName : String
  weekday : Fin 7
  timestamp : Int

structure World where
  cwd : String
  env : String → Option String
  nextTemp : Nat
  dirs : List String
  rmtreeFails : List String
  gaz : Gaz
  clock : ClockReading

/-- `tempfile.mkdtemp(prefix=pfx)`: a fresh uniquely-named directory. -/
def mkTempName (pfx : String) (n : Nat) : String := pfx ++ toString n

def World.mkdtemp (w : World) (pfx : String) : String × World :=
  let t := mkTempName pfx w.nextTemp
  (t, { w with nextTemp := w.nextTemp + 1, dirs := t :: w.dirs })

/-- `os.chdir`. -/
def World.chdir (w : World) (d : String) : World := { w with cwd := d }

/-- `os.environ[k] = v`. -/
def World.setEnv (w : World) (k v : String) : World :=
  { w with env := fun x => if x = k then some v else w.env x }

/-- `os.environ.pop(k, None)`. -/
def World.popEnv (w : World) (k : String) : World :=
  { w with env := fun x => if x = k then none else w.env x }

/-- Restoring one variable: set it back to its prior value, or remove it if
it was previously unset. -/
def World.restoreVar (w : World) (k : String) (v : Option String) : World :=
  match v with
  | some s => w.setEnv k s
  | none => w.popEnv k

/-- `os.makedirs(d, exist_ok=True)`. -/
def World.makedirs (w : World) (d : String) : World := { w with dirs := d :: w.dirs }

/-- `os.path.exists`. -/
def World.exists (w : World) (d : String) : Bool := d ∈ w.dirs

/-- A path prefix test (used to model `shutil.rmtree` removing a directory
and everything under it). -/
def strHasPrefix (p s : String) : Bool := p.toList.isPrefixOf s.toList

/-- `shutil.rmtree(t)` wrapped in `try: ... except: pass` (create/natal) —
an error leaves the directory in place and is swallowed. Deleting removes
the directory and everything under it. -/
def World.rmtreeSuppress (w : World) (t : String) : World :=
  if t ∈ w.rmtreeFails then w
  else { w with dirs := w.dirs.filter fun d => !(strHasPrefix t d) }

/-- The fixed list of cache/temp environment variables the sandbox overwrites
(core.py `env_vars_to_set`, in source order). -/
def sandboxEnvKeys : List String :=
  ["KERYKEION_CACHE_DIR", "XDG_CACHE_HOME", "TMPDIR", "TMP", "TEMP", "PYTHONUSERBASE"]

/-- The loop `for key, value in env_vars_to_set.items(): original_env[key] =
os.environ.get(key); os.environ[key] = value`, interleaving snapshot and
overwrite: returns the snapshot and the updated world. -/
def setVarsLoop (t : String) : World → List String → List (String × Option String) × World
  | w, [] => ([], w)
  | w, k :: ks =>
    let rest := setVarsLoop t (w.setEnv k t) ks
    ((k, w.env k) :: rest.1, rest.2)

/-- The loop `for key, original_value in original_env.items(): ...` restoring
each variable to its prior value. -/
def restoreLoop : World → List (String × Option String) → World
  | w, [] => w
  | w, (k, v) :: rest => restoreLoop (w.restoreVar k v) rest

/-- `for cache_dir in ['.cache', 'cache', '.kerykeion']: os.makedirs(...)`. -/
def World.mkCacheSubdirs (w : World) (t : String) : World :=
  ((w.makedirs (t ++ "/.cache")).makedirs (t ++ "/cache")).makedirs (t ++ "/.kerykeion")

/-! ## The external astrology engine (kerykeion), as an oracle

The spec treats the engine as a pure function from birth/location parameters
to structured chart data or a named failure. `EngineCall` records exactly the
parameters the adapter hands to `AstrologicalSubject`: either the
positional-city form or the keyword `lng`/`lat` form (with or without
`tz_str`). -/

/-- A Python exception: its type name, `str(e)`, and the traceback text
`traceback.format_exc()` would render for it. -/
structure Exn where
  ty : String
  msg : String
  tb : String

/-- The engine's subject object, reduced to what the adapter reads off it:
its `.name` attribute and the string its `.json()` method returns. -/
structure SubjectData where
  name : String
  jsonStr : String

/-- One aspect object from the engine, as the duck-typed normalization sees
it: it may expose `model_dump()`, else `dict()`, else it is already plain. -/
inductive AspectObj where
  | modelDump (d : Json)
  | dictConv (d : Json)
  | plain (j : Json)

/-- The per-element normalization loop of `get_natal_aspects` /
`get_synastry_aspects`. -/
def AspectObj.serialize : AspectObj → Json
  | .modelDump d => d
  | .dictConv d => d
  | .plain j => j

/-- One invocation of `AstrologicalSubject`: the keyword form
`AstrologicalSubject(name, y, m, d, h, min, lng=…, lat=…, [tz_str=…,] city=…)`
or the positional form `AstrologicalSubject(name, y, m, d, h, min, city, nation)`. -/
inductive EngineCall where
  | byCoords (name : String) (year month day hour minute : Int)
      (lng lat : Rat) (tz : Option String) (city : String)
  | byCity (name : String) (year month day hour minute : Int) (city nation : String)

structure Engine where
  mkSubject : EngineCall → Except Exn SubjectData
  natalAspects : SubjectData → List AspectObj
  synastryAspects : SubjectData → SubjectData → List AspectObj
  composite : SubjectData → SubjectData → Except Exn SubjectData

/-- One engine invocation as the adapter performed it, with the process state
at the moment of the call. -/
structure CallEvent where
  call : EngineCall
  cwd : String
  env : String → Option String

/-! ## Error outcomes -/

/-- The `except Exception as e:` boundary of `create_astrological_subject`,
`get_synastry_aspects` and `create_composite_chart`:
`error_msg = str(e) if e and str(e) else "发生未知错误"`, with
`debug_info = {error_message, error_type, traceback}`. -/
def mkErrorOutcome (e : Exn) : Json :=
  let m := if e.msg = "" then "发生未知错误" else e.msg
  .obj [("success", .bool false), ("error", .str m),
    ("debug_info", .obj [("error_message", .str m), ("error_type", .str e.ty),
      ("traceback", .str e.tb)])]

/-- The boundary of `get_natal_aspects`, whose guard additionally rejects the
literal string "None": `str(e) if e and str(e) and str(e) != "None" else …`. -/
def mkErrorOutcomeNatal (e : Exn) : Json :=
  let m := if e.msg = "" || e.msg = "None" then "发生未知错误" else e.msg
  .obj [("success", .bool false), ("error", .str m),
    ("debug_info", .obj [("error_message", .str m), ("error_type", .str e.ty),
      ("traceback", .str e.tb)])]

def optRatJson : Option Rat → Json
  | some q => .num q
  | none => .null

def optStrJson : Option String → Json
  | some s => .str s
  | none => .null

/-- Python truthiness of an optional string (`if tz_str:`). -/
def tzTruthy : Option String → Bool
  | some s => s ≠ ""
  | none => false

/-- `if tz_str: AstrologicalSubject(..., tz_str=tz_str, ...) else ...` — the
keyword the engine actually receives. -/
def tzArg (t : Option String) : Option String :=
  if tzTruthy t then t else none

/-- The sandbox acquire phase shared by `create_astrological_subject` and
`get_natal_aspects` (core.py 144-167 and 281-304): create the fresh temporary
directory, change the working directory into it, snapshot-and-overwrite the
six cache/temp environment variables, pre-create the cache subdirectories.
Returns the directory name, the environment snapshot, and the updated state. -/
def sandboxAcquire (pfx : String) (w : World) :
    String × List (String × Option String) × World :=
  let md := w.mkdtemp pfx
  let tempDir := md.1
  let w1 := md.2.chdir tempDir
  let snap := setVarsLoop tempDir w1 sandboxEnvKeys
  (tempDir, snap.1, snap.2.mkCacheSubdirs tempDir)

/-- The release phase (the `finally` blocks, core.py 196-213 and 380-397):
restore the original working directory, restore each variable to its prior
value (or remove it), and best-effort delete the temporary directory. -/
def sandboxRelease (origCwd : String) (origEnv : List (String × Option String))
    (tempDir : String) (w : World) : World :=
  if (restoreLoop (w.chdir origCwd) origEnv).exists tempDir then
    (restoreLoop (w.chdir origCwd) origEnv).rmtreeSuppress tempDir
  else restoreLoop (w.chdir origCwd) origEnv

/-! ## `create_astrological_subject` (core.py lines 88-242) -/

/-- The adapter operation, returning the outcome mapping, the final process
state, and the engine invocations it performed (each with the process state at
the moment of the call). `zodiacType` and `siderealMode` are accepted and
defaulted exactly as the source does — and, like the source, never used
afterwards. -/
def create_astrological_subject (name : String) (year month day hour minute : Int)
    (city nation : String) (longitude latitude : Option Rat)
    (tzStr zodiacType siderealMode : Option String)
    (eng : Engine) (w : World) : Json × World × List CallEvent :=
  let _zodiacType := zodiacType.getD "Tropic"
  let coords :=
    if longitude.isNone || latitude.isNone then
      match find_city_coordinates city nation w.gaz with
      | some (fla, flo) => (some flo, some fla)
      | none => (longitude, latitude)
    else (longitude, latitude)
  let longitude := coords.1
  let latitude := coords.2
  let tzStr := if nation = "CN" && tzStr.isNone then some "Asia/Shanghai" else tzStr
  let origCwd := w.cwd
  let acq := sandboxAcquire "kerykeion_work_" w
  let tempDir := acq.1
  let origEnv := acq.2.1
  let w2 := acq.2.2
  let call :=
    match longitude, latitude with
    | some lo, some la =>
      EngineCall.byCoords name year month day hour minute lo la (tzArg tzStr) city
    | _, _ => EngineCall.byCity name year month day hour minute city nation
  let ev : CallEvent := ⟨call, w2.cwd, w2.env⟩
  let outcome : Except Exn Json :=
    match longitude, latitude with
    | some _, some _ =>
      (match eng.mkSubject call with
       | .ok s => .ok (.str s.jsonStr)
       | .error e => .error e)
    | _, _ =>
      (match eng.mkSubject call with
       | .ok s => .ok (.str s.jsonStr)
       | .error e =>
         .error ⟨"Exception",
           "无法找到城市 '" ++ city ++
             "' 的地理信息。请提供经纬度坐标或检查城市名称是否正确。原始错误: " ++ e.msg,
           e.tb⟩)
  let w4 := sandboxRelease origCwd origEnv tempDir w2
  let result :=
    match outcome with
    | .ok data =>
      Json.obj [("success", .bool true), ("data", .obj [
        ("input", .obj [("name", .str name), ("year", .num (year : Rat)),
          ("month", .num (month : Rat)), ("day", .num (day : Rat)),
          ("hour", .num (hour : Rat)), ("minute", .num (minute : Rat)),
          ("city", .str city), ("nation", .str nation),
          ("longitude", optRatJson longitude), ("latitude", optRatJson latitude),
          ("tz_str", optStrJson tzStr),
          ("used_coordinates", .bool (longitude.isSome && latitude.isSome))]),
        ("astrological_data", data)])]
    | .error e => mkErrorOutcome e
  (result, w4, [ev])

/-! ## `get_natal_aspects` (core.py lines 245-397)

Note what the source does with the resolver's result here:
`coords = find_city_coordinates(city, nation)` yields a `(latitude,
longitude)` pair, and `longitude, latitude = coords` then binds `longitude`
to the pair's first component — the resolved latitude — and `latitude` to the
resolved longitude. The embedding reproduces that swap faithfully. -/

def get_natal_aspects (name : String) (year month day hour minute : Int)
    (city nation : String) (longitude latitude : Option Rat)
    (tzStr : Option String) (eng : Engine) (w : World) : Json × World × List CallEvent :=
  let origCwd := w.cwd
  let acq := sandboxAcquire "kerykeion_natal_" w
  let tempDir := acq.1
  let origEnv := acq.2.1
  let w2 := acq.2.2
  let coords :=
    if longitude.isNone || latitude.isNone then
      match find_city_coordinates city nation w.gaz with
      | some (fla, flo) => (some fla, some flo)
      | none => (longitude, latitude)
    else (longitude, latitude)
  let longitude := coords.1
  let latitude := coords.2
  let tzStr := if nation = "CN" && !tzTruthy tzStr then some "Asia/Shanghai" else tzStr
  let call :=
    match longitude, latitude with
    | some lo, some la =>
      EngineCall.byCoords name year month day hour minute lo la (tzArg tzStr) city
    | _, _ => EngineCall.byCity name year month day hour minute city nation
  let ev : CallEvent := ⟨call, w2.cwd, w2.env⟩
  let outcome : Except Exn Json :=
    match eng.mkSubject call with
    | .ok s =>
      let aspects := eng.natalAspects s
      .ok (.obj [
        ("input", .obj [("name", .str name), ("year", .num (year : Rat)),
          ("month", .num (month : Rat)), ("day", .num (day : Rat)),
          ("hour", .num (hour : Rat)), ("minute", .num (minute : Rat)),
          ("city", .str city), ("nation", .str nation),
          ("longitude", optRatJson longitude), ("latitude", optRatJson latitude),
          ("tz_str", optStrJson tzStr)]),
        ("astrological_data", .str s.jsonStr),
        ("aspects_count", .num (aspects.length : Rat)),
        ("aspects", .arr (aspects.map AspectObj.serialize))])
    | .error e => .error e
  let w4 := sandboxRelease origCwd origEnv tempDir w2
  let result :=
    match outcome with
    | .ok data => Json.obj [("success", .bool true), ("data", data)]
    | .error e => mkErrorOutcomeNatal e
  (result, w4, [ev])

/-! ## `get_synastry_aspects` and `create_composite_chart` (core.py 400-669)

Both take two `person_data` mappings. The embedding decodes each mapping into
the typed view the source's subscripting assumes (`p['name']`, `p['year']`, …
raise `KeyError` when absent; `p.get('city', '')` defaults to the empty
string). A mapping that is not a dict with the required, correctly-typed keys
makes the body raise, which the operation boundary converts to a failure
outcome — modelled by the `none` branch of `decodePerson`. -/

structure Person where
  name : String
  year : Int
  month : Int
  day : Int
  hour : Int
  minute : Int
  city : Option String
  nation : Option String
  longitude : Option Rat
  latitude : Option Rat
  tzStr : Option String

def decodeStr : Json → Option String
  | .str s => some s
  | _ => none

def decodeInt : Json → Option Int
  | .num q => if q.den = 1 then some q.num else none
  | _ => none

def decodeOptStr : Json → Option (Option String)
  | .null => some none
  | .str s => some (some s)
  | _ => none

def decodeOptRat : Json → Option (Option Rat)
  | .null => some none
  | .num q => some (some q)
  | _ => none

/-- The typed view of one `person_data` mapping. A `city`/`nation`/`tz_str`
that is absent or `null` becomes `none` (the call sites apply the source's
`.get(k, '')` default). -/
def decodePerson (j : Json) : Option Person :=
  match j with
  | .obj _ => do
    let name ← decodeStr (j.getD "name" .null)
    let year ← decodeInt (j.getD "year" .null)
    let month ← decodeInt (j.getD "month" .null)
    let day ← decodeInt (j.getD "day" .null)
    let hour ← decodeInt (j.getD "hour" .null)
    let minute ← decodeInt (j.getD "minute" .null)
    let city ← decodeOptStr (j.getD "city" .null)
    let nation ← decodeOptStr (j.getD "nation" .null)
    let longitude ← decodeOptRat (j.getD "longitude" .null)
    let latitude ← decodeOptRat (j.getD "latitude" .null)
    let tzStr ← decodeOptStr (j.getD "tz_str" .null)
    some ⟨name, year, month, day, hour, minute, city, nation, longitude, latitude, tzStr⟩
  | _ => none

/-- `if p.get('nation') == 'CN' and not p.get('tz_str'): p['tz_str'] = 'Asia/Shanghai'`. -/
def applyCnDefault (p : Person) : Person :=
  if p.nation = some "CN" && !tzTruthy p.tzStr then { p with tzStr := some "Asia/Shanghai" } else p

/-- The subject-construction cascade shared by `get_synastry_aspects` and
`create_composite_chart`: explicit coordinates if both are present, else the
resolver's coordinates if it finds the city, else the engine's own
city/nation lookup. -/
def subjectCallFor (gaz : Gaz) (p : Person) : EngineCall :=
  match p.longitude, p.latitude with
  | some lo, some la =>
    .byCoords p.name p.year p.month p.day p.hour p.minute lo la (tzArg p.tzStr) (p.city.getD "")
  | _, _ =>
    match find_city_coordinates (p.city.getD "") (p.nation.getD "") gaz with
    | some (fla, flo) =>
      .byCoords p.name p.year p.month p.day p.hour p.minute flo fla (tzArg p.tzStr) (p.city.getD "")
    | none =>
      .byCity p.name p.year p.month p.day p.hour p.minute (p.city.getD "") (p.nation.getD "")

/-- The exception raised by subscripting a `person_data` that is not a
mapping with the required keys (`AttributeError` on `.copy()` or `KeyError`
on `p['name']`), as the operation boundary sees it. -/
def personDataExn : Exn :=
  ⟨"KeyError", "person data is not a mapping with the required keys", ""⟩

def get_synastry_aspects (p1raw p2raw : Json) (eng : Engine) (w : World) :
    Json × World × List CallEvent :=
  let origCwd := w.cwd
  let md := w.mkdtemp "kerykeion_synastry_"
  let tempDir := md.1
  let w1 := md.2.chdir tempDir
  let body : Except Exn Json × List CallEvent :=
    match decodePerson p1raw, decodePerson p2raw with
    | some p1, some p2 =>
      let p1 := applyCnDefault p1
      let p2 := applyCnDefault p2
      let call1 := subjectCallFor w.gaz p1
      let ev1 : CallEvent := ⟨call1, w1.cwd, w1.env⟩
      (match eng.mkSubject call1 with
       | .error e => (.error e, [ev1])
       | .ok s1 =>
         let call2 := subjectCallFor w.gaz p2
         let ev2 : CallEvent := ⟨call2, w1.cwd, w1.env⟩
         (match eng.mkSubject call2 with
          | .error e => (.error e, [ev1, ev2])
          | .ok s2 =>
            let aspects := eng.synastryAspects s1 s2
            (.ok (.obj [
              ("person1_input", p1raw), ("person2_input", p2raw),
              ("person1_astrological_data", .str s1.jsonStr),
              ("person2_astrological_data", .str s2.jsonStr),
              ("aspects_count", .num (aspects.length : Rat)),
              ("aspects", .arr (aspects.map AspectObj.serialize))]), [ev1, ev2])))
    | _, _ => (.error personDataExn, [])
  let w2 :=
    let wr := w1.chdir origCwd
    if wr.exists tempDir then wr.rmtreeSuppress tempDir else wr
  let result :=
    match body.1 with
    | .ok data => Json.obj [("success", .bool true), ("data", data)]
    | .error e => mkErrorOutcome e
  (result, w2, body.2)

def create_composite_chart (p1raw p2raw : Json) (eng : Engine) (w : World) :
    Json × World × List CallEvent :=
  let origCwd := w.cwd
  let md := w.mkdtemp "kerykeion_composite_"
  let tempDir := md.1
  let w1 := md.2.chdir tempDir
  let body : Except Exn Json × List CallEvent :=
    match decodePerson p1raw, decodePerson p2raw with
    | some p1, some p2 =>
      let p1 := applyCnDefault p1
      let p2 := applyCnDefault p2
      let call1 := subjectCallFor w.gaz p1
      let ev1 : CallEvent := ⟨call1, w1.cwd, w1.env⟩
      (match eng.mkSubject call1 with
       | .error e => (.error e, [ev1])
       | .ok s1 =>
         let call2 := subjectCallFor w.gaz p2
         let ev2 : CallEvent := ⟨call2, w1.cwd, w1.env⟩
         (match eng.mkSubject call2 with
          | .error e => (.error e, [ev1, ev2])
          | .ok s2 =>
            (match eng.composite s1 s2 with
             | .error e => (.error e, [ev1, ev2])
             | .ok c =>
               (.ok (.obj [
                 ("person1_input", p1raw), ("person2_input", p2raw),
                 ("person1_astrological_data", .str s1.jsonStr),
                 ("person2_astrological_data", .str s2.jsonStr),
                 ("composite_name", .str (s1.name ++ " & " ++ s2.name ++ " Composite")),
                 ("composite_astrological_data", .str c.jsonStr)]), [ev1, ev2]))))
    | _, _ => (.error personDataExn, [])
  let w2 :=
    let wr := w1.chdir origCwd
    if wr.exists tempDir then wr.rmtreeSuppress tempDir else wr
  let result :=
    match body.1 with
    | .ok data => Json.obj [("success", .bool true), ("data", data)]
    | .error e => mkErrorOutcome e
  (result, w2, body.2)

/-! ## `get_current_time` (core.py 22-47) -/

def weekdayCnList : List String :=
  ["星期一", "星期二", "星期三", "星期四", "星期五", "星期六", "星期日"]

def get_current_time (w : World) : Json :=
  .obj [("success", .bool true), ("data", .obj [
    ("year", .num (w.clock.year : Rat)), ("month", .num (w.clock.month : Rat)),
    ("day", .num (w.clock.day : Rat)), ("hour", .num (w.clock.hour : Rat)),
    ("minute", .num (w.clock.minute : Rat)), ("second", .num (w.clock.second : Rat)),
    ("datetime_str", .str w.clock.datetimeStr),
    ("weekday", .str w.clock.weekdayName),
    ("weekday_cn", .str (weekdayCnList.getD w.clock.weekday.val "")),
    ("timestamp", .num (w.clock.timestamp : Rat))])]

/-! ## The server (server.py): catalog, handlers, dispatcher -/

/-- `handle_initialize` (server.py 49-63). -/
def handleInitialize (request : Json) : Json :=
  .obj [("jsonrpc", .str "2.0"), ("id", request.getD "id" .null),
    ("result", .obj [
      ("protocolVersion", .str "2024-11-05"),
      ("capabilities", .obj [("tools", .obj [])]),
      ("serverInfo", .obj [
        ("name", .str "kerykeion-mcp-server"),
        ("version", .str "1.0.0"),
        ("description", .str "Kerykeion 占星计算服务器 - 基于 Kerykeion 库")])])]

def propStr (desc : String) : Json :=
  .obj [("type", .str "string"), ("description", .str desc)]

def propInt (desc : String) : Json :=
  .obj [("type", .str "integer"), ("description", .str desc)]

def propNum (desc : String) : Json :=
  .obj [("type", .str "number"), ("description", .str desc)]

def birthRequired : Json :=
  .arr [.str "name", .str "year", .str "month", .str "day", .str "hour", .str "minute",
    .str "city", .str "nation"]

/-- The person_data schema repeated verbatim in the synastry and composite
entries of the catalog. -/
def personDataSchema (desc : String) : Json :=
  .obj [("type", .str "object"), ("description", .str desc),
    ("properties", .obj [
      ("name", .obj [("type", .str "string")]),
      ("year", .obj [("type", .str "integer")]),
      ("month", .obj [("type", .str "integer")]),
      ("day", .obj [("type", .str "integer")]),
      ("hour", .obj [("type", .str "integer")]),
      ("minute", .obj [("type", .str "integer")]),
      ("city", .obj [("type", .str "string")]),
      ("nation", .obj [("type", .str "string")]),
      ("longitude", .obj [("type", .str "number")]),
      ("latitude", .obj [("type", .str "number")]),
      ("tz_str", .obj [("type", .str "string")])]),
    ("required", birthRequired)]

/-- The static tool catalog (server.py 66-260), returned by `tools/list`. -/
def toolCatalog : Json :=
  .arr [
    .obj [("name", .str "get_current_time"),
      ("description", .str "获取当前系统时间，返回详细的时间信息"),
      ("inputSchema", .obj [("type", .str "object"), ("properties", .obj []),
        ("required", .arr [])])],
    .obj [("name", .str "create_astrological_subject"),
      ("description", .str "创建占星主体对象并返回完整的占星数据，包含行星和宫位信息"),
      ("inputSchema", .obj [("type", .str "object"),
        ("properties", .obj [
          ("name", propStr "姓名"),
          ("year", propInt "出生年份"),
          ("month", propInt "出生月份 (1-12)"),
          ("day", propInt "出生日期 (1-31)"),
          ("hour", propInt "出生小时 (0-23)"),
          ("minute", propInt "出生分钟 (0-59)"),
          ("city", propStr "出生城市"),
          ("nation", propStr "国家代码 (如: US, GB, CN)"),
          ("longitude", propNum "经度（可选，提供则不使用城市查询）"),
          ("latitude", propNum "纬度（可选，提供则不使用城市查询）"),
          ("tz_str", propStr "时区字符串（可选，如: Europe/Rome, America/New_York）"),
          ("zodiac_type", .obj [("type", .str "string"), ("description", .str "黄道类型"),
            ("enum", .arr [.str "Tropical", .str "Sidereal"])]),
          ("sidereal_mode", propStr "恒星模式（当 zodiac_type 为 Sidereal 时使用）")]),
        ("required", birthRequired)])],
    .obj [("name", .str "get_natal_aspects"),
      ("description", .str "获取本命相位信息，分析个人星盘中行星之间的角度关系"),
      ("inputSchema", .obj [("type", .str "object"),
        ("properties", .obj [
          ("name", propStr "姓名"),
          ("year", propInt "出生年份"),
          ("month", propInt "出生月份 (1-12)"),
          ("day", propInt "出生日期 (1-31)"),
          ("hour", propInt "出生小时 (0-23)"),
          ("minute", propInt "出生分钟 (0-59)"),
          ("city", propStr "出生城市"),
          ("nation", propStr "国家代码"),
          ("longitude", propNum "经度（可选）"),
          ("latitude", propNum "纬度（可选）"),
          ("tz_str", propStr "时区字符串（可选）")]),
        ("required", birthRequired)])],
    .obj [("name", .str "get_synastry_aspects"),
      ("description", .str "获取合盘相位信息，分析两个人星盘之间的相位关系"),
      ("inputSchema", .obj [("type", .str "object"),
        ("properties", .obj [
          ("person1_data", personDataSchema "第一个人的出生信息"),
          ("person2_data", personDataSchema "第二个人的出生信息")]),
        ("required", .arr [.str "person1_data", .str "person2_data"])])],
    .obj [("name", .str "create_composite_chart"),
      ("description", .str "创建组合盘（中点合成盘），用于分析两个人的关系"),
      ("inputSchema", .obj [("type", .str "object"),
        ("properties", .obj [
          ("person1_data", personDataSchema "第一个人的出生信息"),
          ("person2_data", personDataSchema "第二个人的出生信息")]),
        ("required", .arr [.str "person1_data", .str "person2_data"])])]]

/-- `handle_tools_list` (server.py 66-260). -/
def handleToolsList (request : Json) : Json :=
  .obj [("jsonrpc", .str "2.0"), ("id", request.getD "id" .null),
    ("result", .obj [("tools", toolCatalog)])]

/-! ### Argument extraction for `tools/call`

The server extracts each argument with `arguments.get(...)` and passes the
raw value positionally into the adapter. The embedding decodes the values
into the types the adapter's signature declares; a value of an unexpected
runtime type would make the engine constructor (or the string operations on
`city`) raise inside the operation's `try`, which its boundary converts to a
failure outcome — modelled by the decoder's `none` branch mapping to that
failure outcome directly. -/

structure CreateArgs where
  name : String
  year : Int
  month : Int
  day : Int
  hour : Int
  minute : Int
  city : String
  nation : String
  longitude : Option Rat
  latitude : Option Rat
  tzStr : Option String
  zodiacType : Option String
  siderealMode : Option String

def decodeCreateArgs (args : Json) : Option CreateArgs := do
  let name ← decodeStr (args.getD "name" .null)
  let year ← decodeInt (args.getD "year" .null)
  let month ← decodeInt (args.getD "month" .null)
  let day ← decodeInt (args.getD "day" .null)
  let hour ← decodeInt (args.getD "hour" .null)
  let minute ← decodeInt (args.getD "minute" .null)
  let city ← decodeStr (args.getD "city" .null)
  let nation ← decodeStr (args.getD "nation" .null)
  let longitude ← decodeOptRat (args.getD "longitude" .null)
  let latitude ← decodeOptRat (args.getD "latitude" .null)
  let tzStr ← decodeOptStr (args.getD "tz_str" .null)
  let zodiacType ← decodeOptStr (args.getD "zodiac_type" (.str "Tropical"))
  let siderealMode ← decodeOptStr (args.getD "sidereal_mode" (.str "LAHIRI"))
  some ⟨name, year, month, day, hour, minute, city, nation, longitude, latitude,
    tzStr, zodiacType, siderealMode⟩

/-- The exception an argument of an unexpected runtime type produces inside
the operation (e.g. a `TypeError` from the engine constructor), as the
operation boundary sees it. -/
def typeErrorExn : Exn := ⟨"TypeError", "argument of an unexpected type", ""⟩

def callCreate (args : Json) (eng : Engine) (w : World) : Json × World :=
  match decodeCreateArgs args with
  | some a =>
    let r := create_astrological_subject a.name a.year a.month a.day a.hour a.minute
      a.city a.nation a.longitude a.latitude a.tzStr a.zodiacType a.siderealMode eng w
    (r.1, r.2.1)
  | none => (mkErrorOutcome typeErrorExn, w)

def callNatal (args : Json) (eng : Engine) (w : World) : Json × World :=
  match decodeCreateArgs args with
  | some a =>
    let r := get_natal_aspects a.name a.year a.month a.day a.hour a.minute
      a.city a.nation a.longitude a.latitude a.tzStr eng w
    (r.1, r.2.1)
  | none => (mkErrorOutcomeNatal typeErrorExn, w)

def callSynastry (args : Json) (eng : Engine) (w : World) : Json × World :=
  let r := get_synastry_aspects (args.getD "person1_data" .null)
    (args.getD "person2_data" .null) eng w
  (r.1, r.2.1)

def callComposite (args : Json) (eng : Engine) (w : World) : Json × World :=
  let r := create_composite_chart (args.getD "person1_data" .null)
    (args.getD "person2_data" .null) eng w
  (r.1, r.2.1)

/-- The uniform success-shaped wrapper of every known-tool branch of
`handle_tools_call`: `content = [{type: "text", text: json.dumps(result)}]`
and — as the source hard-codes in every one of the five branches —
`isError: False`. -/
def wrapToolOk (rid : Json) (outcome : Json) : Json :=
  .obj [("jsonrpc", .str "2.0"), ("id", rid),
    ("result", .obj [
      ("content", .arr [.obj [("type", .str "text"), ("text", .str outcome.dumps)]]),
      ("isError", .bool false)])]

/-- The unknown-tool response (`isError: True`, text naming the tool). -/
def wrapUnknownTool (rid toolName : Json) : Json :=
  .obj [("jsonrpc", .str "2.0"), ("id", rid),
    ("result", .obj [
      ("content", .arr [.obj [("type", .str "text"),
        ("text", .str ("未知工具: " ++ toolName.pyStr))]]),
      ("isError", .bool true)])]

/-- The `except Exception` branch of `handle_tools_call` (`isError: True`). -/
def wrapToolCallError (rid : Json) (msg : String) : Json :=
  .obj [("jsonrpc", .str "2.0"), ("id", rid),
    ("result", .obj [
      ("content", .arr [.obj [("type", .str "text"),
        ("text", .str ("工具调用错误: " ++ msg))]]),
      ("isError", .bool true)])]

/-- The `str(e)` of the `AttributeError` raised by calling `.get` on a
non-mapping value (an external detail of the Python runtime). -/
def noAttrGetMsg : String := "object has no attribute 'get'"

/-- `handle_tools_call` (server.py 263-379). The `params` extraction stands
before the `try`, so a non-mapping `params` raises out of the handler
(`Except.error`), to be caught by `main`'s internal-error branch; everything
inside the `try` that raises (here: `arguments.get` on a non-mapping
`arguments` in the four chart branches) is converted to the
`工具调用错误` payload with `isError: True`. -/
def handle_tools_call (eng : Engine) (w : World) (request : Json) :
    Except String (Json × World) :=
  let params := request.getD "params" (.obj [])
  match params with
  | .obj _ =>
    let toolName := (params.get "name").getD .null
    let arguments := params.getD "arguments" (.obj [])
    let rid := request.getD "id" .null
    if toolName.eqStr "get_current_time" then
      .ok (wrapToolOk rid (get_current_time w), w)
    else if toolName.eqStr "create_astrological_subject" then
      match arguments with
      | .obj _ =>
        let r := callCreate arguments eng w
        .ok (wrapToolOk rid r.1, r.2)
      | _ => .ok (wrapToolCallError rid noAttrGetMsg, w)
    else if toolName.eqStr "get_natal_aspects" then
      match arguments with
      | .obj _ =>
        let r := callNatal arguments eng w
        .ok (wrapToolOk rid r.1, r.2)
      | _ => .ok (wrapToolCallError rid noAttrGetMsg, w)
    else if toolName.eqStr "get_synastry_aspects" then
      match arguments with
      | .obj _ =>
        let r := callSynastry arguments eng w
        .ok (wrapToolOk rid r.1, r.2)
      | _ => .ok (wrapToolCallError rid noAttrGetMsg, w)
    else if toolName.eqStr "create_composite_chart" then
      match arguments with
      | .obj _ =>
        let r := callComposite arguments eng w
        .ok (wrapToolOk rid r.1, r.2)
      | _ => .ok (wrapToolCallError rid noAttrGetMsg, w)
    else
      .ok (wrapUnknownTool rid toolName, w)
  | _ => .error noAttrGetMsg

/-- The parse-error response `main` prints for a line that is not valid JSON. -/
def parseErrorResponse : Json :=
  .obj [("jsonrpc", .str "2.0"), ("id", .null),
    ("error", .obj [("code", .num (-32700 : Rat)), ("message", .str "Parse error")])]

/-- The internal-error response of `main`'s `except Exception` branch. -/
def internalErrorResponse (msg : String) : Json :=
  .obj [("jsonrpc", .str "2.0"), ("id", .null),
    ("error", .obj [("code", .num (-32603 : Rat)),
      ("message", .str ("Internal error: " ++ msg))])]

/-- The method-not-found response. -/
def methodNotFoundResponse (request : Json) : Json :=
  .obj [("jsonrpc", .str "2.0"), ("id", request.getD "id" .null),
    ("error", .obj [("code", .num (-32601 : Rat)),
      ("message", .str "Method not found")])]

/-- One stdin line of `main`, as the outcome of `json.loads(line.strip())`
(the parser is Python's external json module): `none` is a
`json.JSONDecodeError`, `some v` the decoded value. -/
abbrev ParsedLine := Option Json

/-- One iteration of `main`'s read loop (server.py 388-423): the response
printed for the line, and the process state afterwards. -/
def serverStep (eng : Engine) (w : World) (line : ParsedLine) : Json × World :=
  match line with
  | none => (parseErrorResponse, w)
  | some request =>
    match request with
    | .obj _ =>
      let method := (request.get "method").getD .null
      if method.eqStr "initialize" then (handleInitialize request, w)
      else if method.eqStr "tools/list" then (handleToolsList request, w)
      else if method.eqStr "tools/call" then
        match handle_tools_call eng w request with
        | .ok r => r
        | .error msg => (internalErrorResponse msg, w)
      else (methodNotFoundResponse request, w)
    | _ => (internalErrorResponse noAttrGetMsg, w)

/-- The whole read loop: one response per input line, in order. -/
def serverRun (eng : Engine) : World → List ParsedLine → List Json
  | _, [] => []
  | w, l :: rest =>
    let r := serverStep eng w l
    r.1 :: serverRun eng r.2 rest

/-! ## Helper lemmas: the sandbox's acquire/release loops -/

theorem World.restoreVar_env (w : World) (k : String) (v : Option String) (x : String) :
    (w.restoreVar k v).env x = if x = k then v else w.env x := by
  cases v <;> simp [World.restoreVar, World.setEnv, World.popEnv]

theorem World.restoreVar_cwd (w : World) (k : String) (v : Option String) :
    (w.restoreVar k v).cwd = w.cwd := by
  cases v <;> rfl

theorem World.restoreVar_dirs (w : World) (k : String) (v : Option String) :
    (w.restoreVar k v).dirs = w.dirs := by
  cases v <;> rfl

theorem World.restoreVar_rmtreeFails (w : World) (k : String) (v : Option String) :
    (w.restoreVar k v).rmtreeFails = w.rmtreeFails := by
  cases v <;> rfl

theorem restoreLoop_env (e : String → Option String) :
    ∀ (ks : List String) (w : World) (x : String),
      (restoreLoop w (ks.map fun k => (k, e k))).env x =
        if x ∈ ks then e x else w.env x := by
  intro ks
  induction ks with
  | nil => simp [restoreLoop]
  | cons k ks ih =>
    intro w x
    simp only [List.map_cons, restoreLoop, ih, World.restoreVar_env, List.mem_cons]
    by_cases hx : x ∈ ks
    · simp [hx]
    · by_cases hk : x = k <;> simp [hx, hk]

theorem restoreLoop_cwd : ∀ (snap : List (String × Option String)) (w : World),
    (restoreLoop w snap).cwd = w.cwd := by
  intro snap
  induction snap with
  | nil => intro w; rfl
  | cons p rest ih =>
    intro w
    obtain ⟨k, v⟩ := p
    rw [restoreLoop, ih, World.restoreVar_cwd]

theorem restoreLoop_dirs : ∀ (snap : List (String × Option String)) (w : World),
    (restoreLoop w snap).dirs = w.dirs := by
  intro snap
  induction snap with
  | nil => intro w; rfl
  | cons p rest ih =>
    intro w
    obtain ⟨k, v⟩ := p
    rw [restoreLoop, ih, World.restoreVar_dirs]

theorem restoreLoop_rmtreeFails : ∀ (snap : List (String × Option String)) (w : World),
    (restoreLoop w snap).rmtreeFails = w.rmtreeFails := by
  intro snap
  induction snap with
  | nil => intro w; rfl
  | cons p rest ih =>
    intro w
    obtain ⟨k, v⟩ := p
    rw [restoreLoop, ih, World.restoreVar_rmtreeFails]

theorem setVarsLoop_snap (t : String) :
    ∀ (ks : List String) (w : World), ks.Nodup →
      (setVarsLoop t w ks).1 = ks.map fun k => (k, w.env k) := by
  intro ks
  induction ks with
  | nil => intro w _; rfl
  | cons k ks ih =>
    intro w hnd
    rw [List.nodup_cons] at hnd
    simp only [setVarsLoop, List.map_cons, ih _ hnd.2, List.cons.injEq, true_and]
    refine List.map_congr_left fun k' hk' => ?_
    have : k' ≠ k := fun h => hnd.1 (h ▸ hk')
    simp [World.setEnv, this]

theorem setVarsLoop_env (t : String) :
    ∀ (ks : List String) (w : World) (x : String),
      (setVarsLoop t w ks).2.env x = if x ∈ ks then some t else w.env x := by
  intro ks
  induction ks with
  | nil => simp [setVarsLoop]
  | cons k ks ih =>
    intro w x
    simp only [setVarsLoop, ih, List.mem_cons]
    by_cases hx : x ∈ ks
    · simp [hx]
    · by_cases hk : x = k <;> simp [hx, hk, World.setEnv]

theorem setVarsLoop_cwd (t : String) :
    ∀ (ks : List String) (w : World), (setVarsLoop t w ks).2.cwd = w.cwd := by
  intro ks
  induction ks with
  | nil => intro w; rfl
  | cons k ks ih => intro w; rw [setVarsLoop, ih]; rfl

theorem setVarsLoop_dirs (t : String) :
    ∀ (ks : List String) (w : World), (setVarsLoop t w ks).2.dirs = w.dirs := by
  intro ks
  induction ks with
  | nil => intro w; rfl
  | cons k ks ih => intro w; rw [setVarsLoop, ih]; rfl

theorem setVarsLoop_rmtreeFails (t : String) :
    ∀ (ks : List String) (w : World), (setVarsLoop t w ks).2.rmtreeFails = w.rmtreeFails := by
  intro ks
  induction ks with
  | nil => intro w; rfl
  | cons k ks ih => intro w; rw [setVarsLoop, ih]; rfl

theorem sandboxEnvKeys_nodup : sandboxEnvKeys.Nodup := by decide

theorem World.rmtreeSuppress_env (w : World) (t : String) :
    (w.rmtreeSuppress t).env = w.env := by
  unfold World.rmtreeSuppress; split <;> rfl

theorem World.rmtreeSuppress_cwd (w : World) (t : String) :
    (w.rmtreeSuppress t).cwd = w.cwd := by
  unfold World.rmtreeSuppress; split <;> rfl

theorem strHasPrefix_self (s : String) : strHasPrefix s s = true := by
  have : ∀ l : List Char, l.isPrefixOf l = true := by
    intro l
    induction l with
    | nil => rfl
    | cons c t ih => simp [List.isPrefixOf, ih]
  exact this s.toList

theorem World.not_mem_rmtreeSuppress (w : World) (t : String)
    (h : t ∉ w.rmtreeFails) : t ∉ (w.rmtreeSuppress t).dirs := by
  unfold World.rmtreeSuppress
  rw [if_neg h]
  intro hmem
  rcases List.mem_filter.mp hmem with ⟨-, hpref⟩
  rw [strHasPrefix_self] at hpref
  exact absurd hpref (by simp)

/-! ## Claim theorems -/

/-- C6 — the coordinate resolver's match order for nation "CN": the result is
the first exact key match over all provinces in iteration order; only if no
exact match exists, the first fuzzy substring match over all (province, city)
pairs in iteration order; only if that also fails, the hard-coded 丰宁→承德
alias. First match wins, with no scoring, and an exact match is always
preferred over any fuzzy one. -/
theorem C6_resolver_match_order (gaz : Gaz) (q : String) :
    find_city_coordinates q "CN" gaz =
      match (allCities gaz).lookup q with
      | some c => some c
      | none =>
        match ((allCities gaz).find? fun p => pyIn q p.1 || pyIn p.1 q).map Prod.snd with
        | some c => some c
        | none =>
          if pyIn "丰宁" q then
            match gaz.lookup "河北省" with
            | some cities => cities.lookup "承德"
            | none => none
          else none := by
  rw [find_city_coordinates, if_pos rfl, exactPass_eq_lookup, fuzzyPass_eq_find]
  rfl

/-- C10 (amended) — for the empty city name with nation "CN", provided some
province holds at least one city and no city key is itself the empty string,
the resolver does not return absent: the exact pass finds nothing, the fuzzy
pass treats "" as a substring of every city name, and the first city of the
first non-empty province (the head of the gazetteer's flattened city list)
wins. -/
theorem lookup_empty_of_keys_ne (l : List (String × Rat × Rat))
    (h : ∀ p ∈ l, p.1 ≠ "") : l.lookup "" = none := by
  induction l with
  | nil => rfl
  | cons p rest ih =>
    obtain ⟨k, c⟩ := p
    have hk : (("" : String) == k) = false :=
      beq_eq_false_iff_ne.mpr fun he => (h ⟨k, c⟩ (List.mem_cons_self _ _)) he.symm
    simp only [List.lookup, hk]
    exact ih fun x hx => h x (List.mem_cons_of_mem _ hx)

theorem C10_empty_city_fuzzy (gaz : Gaz)
    (h1 : allCities gaz ≠ [])
    (h2 : ∀ p ∈ allCities gaz, p.1 ≠ "") :
    find_city_coordinates "" "CN" gaz = (allCities gaz).head?.map Prod.snd := by
  rw [C6_resolver_match_order, lookup_empty_of_keys_ne _ h2]
  rcases hc : allCities gaz with _ | ⟨a, t⟩
  · exact absurd hc h1
  · simp [List.find?, pyIn_empty]

/-- C10 — the claim as frozen is false: `[("P", [])]` is a non-empty
gazetteer (one province, no cities), yet resolving the empty city name
returns absent. -/
theorem C10_counterexample :
    ([("P", [])] : Gaz) ≠ [] ∧
      find_city_coordinates "" "CN" [("P", [])] = none :=
  ⟨by simp, rfl⟩

/-! ## Concrete fixtures for witnesses and counterexamples -/

def clock0 : ClockReading :=
  ⟨2025, 10, 12, 0, 0, 0, "2025-10-12 00:00:00", "Sunday", ⟨6, by decide⟩, 1760227200⟩

/-- An initial process state: no cache variables set, no directories, empty
gazetteer. -/
def w0 : World := ⟨"/srv", fun _ => none, 0, [], [], [], clock0⟩

/-- An engine whose every call succeeds. -/
def engOk : Engine :=
  ⟨fun _ => .ok ⟨"S", "SJSON"⟩, fun _ => [], fun _ _ => [], fun _ _ => .ok ⟨"C", "CJSON"⟩⟩

/-- An engine whose every call raises. -/
def engFail : Engine :=
  ⟨fun _ => .error ⟨"Exception", "boom", "TB"⟩, fun _ => [], fun _ _ => [],
   fun _ _ => .error ⟨"Exception", "boom", "TB"⟩⟩

/-- A one-province, one-city gazetteer: 北京 at latitude 39.9, longitude 116.4. -/
def cnGaz : Gaz := [("北京市", [("北京", ((399 : Rat)/10, (1164 : Rat)/10))])]

def wCN : World := { w0 with gaz := cnGaz }

/-- C10 witness input: apply the amended theorem to `cnGaz`. -/
theorem C10_witness :
    find_city_coordinates "" "CN" cnGaz = (allCities cnGaz).head?.map Prod.snd :=
  C10_empty_city_fuzzy cnGaz (by decide) (by decide)

/-- C9 — `create_astrological_subject` ignores its `zodiac_type` and
`sidereal_mode` arguments entirely: the returned outcome, the final process
state and the engine-call trace are all identical for any two values of the
pair, because the source only binds a default for `zodiac_type` and then
never forwards either value to the engine nor echoes it in the result. -/
theorem C9_zodiac_sidereal_unused (name : String) (year month day hour minute : Int)
    (city nation : String) (longitude latitude : Option Rat) (tzStr : Option String)
    (z1 s1 z2 s2 : Option String) (eng : Engine) (w : World) :
    create_astrological_subject name year month day hour minute city nation
      longitude latitude tzStr z1 s1 eng w =
    create_astrological_subject name year month day hour minute city nation
      longitude latitude tzStr z2 s2 eng w := rfl

/-! ## C5: the adapter's failure policy -/

/-- The uniform outcome shape of every adapter operation: either
`{success: true, data: …}` or
`{success: false, error: <string>, debug_info: {error_message, error_type,
traceback}}`. -/
def outcomeShaped (j : Json) : Bool :=
  match j with
  | .obj [("success", .bool true), ("data", _)] => true
  | .obj [("success", .bool false), ("error", .str _),
      ("debug_info", .obj [("error_message", .str _), ("error_type", .str _),
        ("traceback", .str _)])] => true
  | _ => false

theorem outcomeShaped_mkErrorOutcome (e : Exn) :
    outcomeShaped (mkErrorOutcome e) = true := rfl

theorem mkErrorOutcome_get_success (e : Exn) :
    (mkErrorOutcome e).get "success" = some (.bool false) := rfl

theorem mkErrorOutcome_get_error (e : Exn) :
    (mkErrorOutcome e).get "error" =
      some (.str (if e.msg = "" then "发生未知错误" else e.msg)) := rfl

theorem outcomeShaped_mkErrorOutcomeNatal (e : Exn) :
    outcomeShaped (mkErrorOutcomeNatal e) = true := rfl

/-- C5 — no adapter operation ever raises: each of the four operations is a
total function whose outcome always has the uniform success/failure shape
(any exception from the engine or from decoding the inputs is converted at
the operation boundary), and `create_astrological_subject` with an
unresolvable city and no explicit coordinates returns `success: false` with
an error message that names the city. -/
theorem C5_operation_boundary :
    (∀ (name : String) (year month day hour minute : Int) (city nation : String)
        (longitude latitude : Option Rat) (tzStr zodiacType siderealMode : Option String)
        (eng : Engine) (w : World),
        outcomeShaped (create_astrological_subject name year month day hour minute
          city nation longitude latitude tzStr zodiacType siderealMode eng w).1 = true)
    ∧ (∀ (name : String) (year month day hour minute : Int) (city nation : String)
        (longitude latitude : Option Rat) (tzStr : Option String)
        (eng : Engine) (w : World),
        outcomeShaped (get_natal_aspects name year month day hour minute
          city nation longitude latitude tzStr eng w).1 = true)
    ∧ (∀ (p1raw p2raw : Json) (eng : Engine) (w : World),
        outcomeShaped (get_synastry_aspects p1raw p2raw eng w).1 = true)
    ∧ (∀ (p1raw p2raw : Json) (eng : Engine) (w : World),
        outcomeShaped (create_composite_chart p1raw p2raw eng w).1 = true)
    ∧ (∀ (name : String) (year month day hour minute : Int) (city nation : String)
        (tzStr zodiacType siderealMode : Option String) (eng : Engine) (w : World) (e : Exn),
        find_city_coordinates city nation w.gaz = none →
        eng.mkSubject (.byCity name year month day hour minute city nation) = .error e →
        ∃ m,
          (create_astrological_subject name year month day hour minute city nation
            none none tzStr zodiacType siderealMode eng w).1.get "success" =
              some (.bool false) ∧
          (create_astrological_subject name year month day hour minute city nation
            none none tzStr zodiacType siderealMode eng w).1.get "error" =
              some (.str m) ∧
          pyIn city m = true) := by
  refine ⟨?_, ?_, ?_, ?_, ?_⟩
  · intro name year month day hour minute city nation longitude latitude
      tzStr zodiacType siderealMode eng w
    simp only [create_astrological_subject]
    repeat' split
    all_goals rfl
  · intro name year month day hour minute city nation longitude latitude tzStr eng w
    simp only [get_natal_aspects]
    repeat' split
    all_goals rfl
  · intro p1raw p2raw eng w
    simp only [get_synastry_aspects]
    repeat' split
    all_goals rfl
  · intro p1raw p2raw eng w
    simp only [create_composite_chart]
    repeat' split
    all_goals rfl
  · intro name year month day hour minute city nation tzStr zodiacType siderealMode
      eng w e hfind heng
    have hstep : (create_astrological_subject name year month day hour minute city nation
        none none tzStr zodiacType siderealMode eng w).1 =
        mkErrorOutcome ⟨"Exception", "无法找到城市 '" ++ city ++
          "' 的地理信息。请提供经纬度坐标或检查城市名称是否正确。原始错误: " ++ e.msg, e.tb⟩ := by
      simp only [create_astrological_subject, hfind, heng, Option.isNone_none, Bool.or_self,
        if_true]
    have hne : ("无法找到城市 '" ++ city ++
        "' 的地理信息。请提供经纬度坐标或检查城市名称是否正确。原始错误: " ++ e.msg) ≠ "" := by
      intro h
      have hl := congrArg String.length h
      rw [String.length_append, String.length_append, String.length_append] at hl
      have h8 : ("无法找到城市 '" : String).length = 8 := rfl
      have h0 : ("" : String).length = 0 := rfl
      omega
    refine ⟨"无法找到城市 '" ++ city ++
      "' 的地理信息。请提供经纬度坐标或检查城市名称是否正确。原始错误: " ++ e.msg, ?_, ?_, ?_⟩
    · rw [hstep]; rfl
    · rw [hstep, mkErrorOutcome_get_error]
      simp [hne]
    · rw [String.append_assoc ("无法找到城市 '" ++ city)]
      exact pyIn_append "无法找到城市 '" city
        ("' 的地理信息。请提供经纬度坐标或检查城市名称是否正确。原始错误: " ++ e.msg)

/-- C5 witness: the unresolvable-city clause at a concrete input whose
engine raises. -/
theorem C5_witness :
    ∃ m,
      (create_astrological_subject "Ann" 1990 1 1 12 0 "Atlantis" "US" none none
        none none none engFail w0).1.get "success" = some (.bool false) ∧
      (create_astrological_subject "Ann" 1990 1 1 12 0 "Atlantis" "US" none none
        none none none engFail w0).1.get "error" = some (.str m) ∧
      pyIn "Atlantis" m = true :=
  C5_operation_boundary.2.2.2.2 "Ann" 1990 1 1 12 0 "Atlantis" "US" none none none
    engFail w0 ⟨"Exception", "boom", "TB"⟩ rfl rfl

/-! ## C4: unconditional release of the sandbox -/

theorem sandboxAcquire_tempDir (pfx : String) (w : World) :
    (sandboxAcquire pfx w).1 = mkTempName pfx w.nextTemp := rfl

theorem sandboxAcquire_cwd (pfx : String) (w : World) :
    (sandboxAcquire pfx w).2.2.cwd = mkTempName pfx w.nextTemp := by
  show ((setVarsLoop _ _ sandboxEnvKeys).2.mkCacheSubdirs _).cwd = _
  simp [World.mkCacheSubdirs, World.makedirs, setVarsLoop_cwd, World.chdir, World.mkdtemp]

theorem sandboxAcquire_env_mem (pfx : String) (w : World) (k : String)
    (hk : k ∈ sandboxEnvKeys) :
    (sandboxAcquire pfx w).2.2.env k = some (mkTempName pfx w.nextTemp) := by
  show (setVarsLoop (mkTempName pfx w.nextTemp) _ sandboxEnvKeys).2.env k = _
  rw [setVarsLoop_env, if_pos hk]

theorem sandboxAcquire_env_not_mem (pfx : String) (w : World) (k : String)
    (hk : k ∉ sandboxEnvKeys) :
    (sandboxAcquire pfx w).2.2.env k = w.env k := by
  show (setVarsLoop (mkTempName pfx w.nextTemp) _ sandboxEnvKeys).2.env k = _
  rw [setVarsLoop_env, if_neg hk]
  rfl

theorem sandboxAcquire_snap (pfx : String) (w : World) :
    (sandboxAcquire pfx w).2.1 = sandboxEnvKeys.map fun k => (k, w.env k) := by
  show (setVarsLoop _ _ sandboxEnvKeys).1 = _
  rw [setVarsLoop_snap _ _ _ sandboxEnvKeys_nodup]
  rfl

theorem sandboxAcquire_dirs_mem (pfx : String) (w : World) :
    mkTempName pfx w.nextTemp ∈ (sandboxAcquire pfx w).2.2.dirs := by
  show _ ∈ ((setVarsLoop _ _ sandboxEnvKeys).2.mkCacheSubdirs _).dirs
  simp [World.mkCacheSubdirs, World.makedirs, setVarsLoop_dirs, World.chdir, World.mkdtemp]

theorem sandboxAcquire_rmtreeFails (pfx : String) (w : World) :
    (sandboxAcquire pfx w).2.2.rmtreeFails = w.rmtreeFails := by
  show ((setVarsLoop _ _ sandboxEnvKeys).2.mkCacheSubdirs _).rmtreeFails = _
  simp [World.mkCacheSubdirs, World.makedirs, setVarsLoop_rmtreeFails, World.chdir,
    World.mkdtemp]

theorem sandboxRelease_cwd (c : String) (snap : List (String × Option String))
    (t : String) (w : World) : (sandboxRelease c snap t w).cwd = c := by
  unfold sandboxRelease
  split
  · rw [World.rmtreeSuppress_cwd, restoreLoop_cwd]; rfl
  · rw [restoreLoop_cwd]; rfl

theorem sandboxRelease_env (c : String) (e : String → Option String) (t : String)
    (w : World) (x : String) :
    (sandboxRelease c (sandboxEnvKeys.map fun k => (k, e k)) t w).env x =
      if x ∈ sandboxEnvKeys then e x else w.env x := by
  simp only [sandboxRelease]
  split
  · rw [World.rmtreeSuppress_env, restoreLoop_env]; rfl
  · rw [restoreLoop_env]; rfl

theorem sandboxRelease_rmtreeFails (c : String) (snap : List (String × Option String))
    (t : String) (w : World) : (sandboxRelease c snap t w).rmtreeFails = w.rmtreeFails := by
  simp only [sandboxRelease]
  split
  · show (World.rmtreeSuppress _ _).rmtreeFails = _
    unfold World.rmtreeSuppress
    split <;> (rw [restoreLoop_rmtreeFails]; rfl)
  · rw [restoreLoop_rmtreeFails]; rfl

theorem sandboxRelease_dirs_not_mem (c : String) (snap : List (String × Option String))
    (t : String) (w : World) (hmem : t ∈ w.dirs) (hfail : t ∉ w.rmtreeFails) :
    t ∉ (sandboxRelease c snap t w).dirs := by
  simp only [sandboxRelease]
  have hex : (restoreLoop (w.chdir c) snap).exists t = true := by
    simp only [World.exists, restoreLoop_dirs, World.chdir, decide_eq_true_eq]
    exact hmem
  rw [if_pos hex]
  apply World.not_mem_rmtreeSuppress
  rw [restoreLoop_rmtreeFails]
  exact hfail

theorem create_release_cwd (name : String) (year month day hour minute : Int)
    (city nation : String) (longitude latitude : Option Rat)
    (tzStr zodiacType siderealMode : Option String) (eng : Engine) (w : World) :
    (create_astrological_subject name year month day hour minute city nation
      longitude latitude tzStr zodiacType siderealMode eng w).2.1.cwd = w.cwd := by
  show (sandboxRelease w.cwd (sandboxAcquire "kerykeion_work_" w).2.1
    (sandboxAcquire "kerykeion_work_" w).1 (sandboxAcquire "kerykeion_work_" w).2.2).cwd
    = w.cwd
  exact sandboxRelease_cwd _ _ _ _

theorem create_release_env (name : String) (year month day hour minute : Int)
    (city nation : String) (longitude latitude : Option Rat)
    (tzStr zodiacType siderealMode : Option String) (eng : Engine) (w : World) (x : String) :
    (create_astrological_subject name year month day hour minute city nation
      longitude latitude tzStr zodiacType siderealMode eng w).2.1.env x = w.env x := by
  show (sandboxRelease w.cwd (sandboxAcquire "kerykeion_work_" w).2.1
    (sandboxAcquire "kerykeion_work_" w).1 (sandboxAcquire "kerykeion_work_" w).2.2).env x
    = w.env x
  rw [sandboxAcquire_snap, sandboxRelease_env]
  by_cases hx : x ∈ sandboxEnvKeys
  · rw [if_pos hx]
  · rw [if_neg hx, sandboxAcquire_env_not_mem _ _ _ hx]

theorem create_release_dirs (name : String) (year month day hour minute : Int)
    (city nation : String) (longitude latitude : Option Rat)
    (tzStr zodiacType siderealMode : Option String) (eng : Engine) (w : World)
    (ht : mkTempName "kerykeion_work_" w.nextTemp ∉ w.rmtreeFails) :
    mkTempName "kerykeion_work_" w.nextTemp ∉ (create_astrological_subject name year month
      day hour minute city nation longitude latitude tzStr zodiacType siderealMode
      eng w).2.1.dirs := by
  show mkTempName "kerykeion_work_" w.nextTemp ∉
    (sandboxRelease w.cwd (sandboxAcquire "kerykeion_work_" w).2.1
      (sandboxAcquire "kerykeion_work_" w).1 (sandboxAcquire "kerykeion_work_" w).2.2).dirs
  exact sandboxRelease_dirs_not_mem _ _ _ _ (sandboxAcquire_dirs_mem _ _)
    (by rw [sandboxAcquire_rmtreeFails]; exact ht)

theorem natal_release_cwd (name : String) (year month day hour minute : Int)
    (city nation : String) (longitude latitude : Option Rat)
    (tzStr : Option String) (eng : Engine) (w : World) :
    (get_natal_aspects name year month day hour minute city nation
      longitude latitude tzStr eng w).2.1.cwd = w.cwd := by
  show (sandboxRelease w.cwd (sandboxAcquire "kerykeion_natal_" w).2.1
    (sandboxAcquire "kerykeion_natal_" w).1 (sandboxAcquire "kerykeion_natal_" w).2.2).cwd
    = w.cwd
  exact sandboxRelease_cwd _ _ _ _

theorem natal_release_env (name : String) (year month day hour minute : Int)
    (city nation : String) (longitude latitude : Option Rat)
    (tzStr : Option String) (eng : Engine) (w : World) (x : String) :
    (get_natal_aspects name year month day hour minute city nation
      longitude latitude tzStr eng w).2.1.env x = w.env x := by
  show (sandboxRelease w.cwd (sandboxAcquire "kerykeion_natal_" w).2.1
    (sandboxAcquire "kerykeion_natal_" w).1 (sandboxAcquire "kerykeion_natal_" w).2.2).env x
    = w.env x
  rw [sandboxAcquire_snap, sandboxRelease_env]
  by_cases hx : x ∈ sandboxEnvKeys
  · rw [if_pos hx]
  · rw [if_neg hx, sandboxAcquire_env_not_mem _ _ _ hx]

theorem natal_release_dirs (name : String) (year month day hour minute : Int)
    (city nation : String) (longitude latitude : Option Rat)
    (tzStr : Option String) (eng : Engine) (w : World)
    (ht : mkTempName "kerykeion_natal_" w.nextTemp ∉ w.rmtreeFails) :
    mkTempName "kerykeion_natal_" w.nextTemp ∉ (get_natal_aspects name year month
      day hour minute city nation longitude latitude tzStr eng w).2.1.dirs := by
  show mkTempName "kerykeion_natal_" w.nextTemp ∉
    (sandboxRelease w.cwd (sandboxAcquire "kerykeion_natal_" w).2.1
      (sandboxAcquire "kerykeion_natal_" w).1 (sandboxAcquire "kerykeion_natal_" w).2.2).dirs
  exact sandboxRelease_dirs_not_mem _ _ _ _ (sandboxAcquire_dirs_mem _ _)
    (by rw [sandboxAcquire_rmtreeFails]; exact ht)

/-- C4 — after every call to `create_astrological_subject` or
`get_natal_aspects` — whatever the engine does, so on success and when the
engine invocation raises — the working directory and every environment
variable (in particular the six cache/temp variables, and a variable unset
before the call is unset afterwards) equal their pre-call values; the
temporary directory created by the call is gone whenever its deletion does
not itself fail; and a deletion failure is suppressed: the returned outcome
is identical whatever `rmtree` would have failed on. -/
theorem C4_sandbox_restore :
    (∀ (name : String) (year month day hour minute : Int) (city nation : String)
        (longitude latitude : Option Rat) (tzStr zodiacType siderealMode : Option String)
        (eng : Engine) (w : World),
        (create_astrological_subject name year month day hour minute city nation
          longitude latitude tzStr zodiacType siderealMode eng w).2.1.cwd = w.cwd
        ∧ (∀ x, (create_astrological_subject name year month day hour minute city nation
            longitude latitude tzStr zodiacType siderealMode eng w).2.1.env x = w.env x)
        ∧ (mkTempName "kerykeion_work_" w.nextTemp ∉ w.rmtreeFails →
            mkTempName "kerykeion_work_" w.nextTemp ∉ (create_astrological_subject name
              year month day hour minute city nation longitude latitude tzStr zodiacType
              siderealMode eng w).2.1.dirs)
        ∧ (∀ l1 l2, (create_astrological_subject name year month day hour minute city
            nation longitude latitude tzStr zodiacType siderealMode eng
            { w with rmtreeFails := l1 }).1 =
          (create_astrological_subject name year month day hour minute city nation
            longitude latitude tzStr zodiacType siderealMode eng
            { w with rmtreeFails := l2 }).1))
    ∧ (∀ (name : String) (year month day hour minute : Int) (city nation : String)
        (longitude latitude : Option Rat) (tzStr : Option String)
        (eng : Engine) (w : World),
        (get_natal_aspects name year month day hour minute city nation
          longitude latitude tzStr eng w).2.1.cwd = w.cwd
        ∧ (∀ x, (get_natal_aspects name year month day hour minute city nation
            longitude latitude tzStr eng w).2.1.env x = w.env x)
        ∧ (mkTempName "kerykeion_natal_" w.nextTemp ∉ w.rmtreeFails →
            mkTempName "kerykeion_natal_" w.nextTemp ∉ (get_natal_aspects name year month
              day hour minute city nation longitude latitude tzStr eng w).2.1.dirs)
        ∧ (∀ l1 l2, (get_natal_aspects name year month day hour minute city nation
            longitude latitude tzStr eng { w with rmtreeFails := l1 }).1 =
          (get_natal_aspects name year month day hour minute city nation
            longitude latitude tzStr eng { w with rmtreeFails := l2 }).1)) := by
  constructor
  · intro name year month day hour minute city nation longitude latitude
      tzStr zodiacType siderealMode eng w
    exact ⟨create_release_cwd name year month day hour minute city nation longitude
        latitude tzStr zodiacType siderealMode eng w,
      fun x => create_release_env name year month day hour minute city nation longitude
        latitude tzStr zodiacType siderealMode eng w x,
      fun ht => create_release_dirs name year month day hour minute city nation longitude
        latitude tzStr zodiacType siderealMode eng w ht,
      fun l1 l2 => rfl⟩
  · intro name year month day hour minute city nation longitude latitude tzStr eng w
    exact ⟨natal_release_cwd name year month day hour minute city nation longitude
        latitude tzStr eng w,
      fun x => natal_release_env name year month day hour minute city nation longitude
        latitude tzStr eng w x,
      fun ht => natal_release_dirs name year month day hour minute city nation longitude
        latitude tzStr eng w ht,
      fun l1 l2 => rfl⟩

/-- C4 witness: the theorem applied to a concrete call whose engine raises,
from a state with `TMPDIR` unset — afterwards the directory is restored,
`TMPDIR` is unset again, and the temporary directory is gone. -/
theorem C4_witness :
    (create_astrological_subject "Ann" 1990 1 1 12 0 "Atlantis" "US" none none
      none none none engFail w0).2.1.cwd = w0.cwd
    ∧ (create_astrological_subject "Ann" 1990 1 1 12 0 "Atlantis" "US" none none
      none none none engFail w0).2.1.env "TMPDIR" = w0.env "TMPDIR"
    ∧ mkTempName "kerykeion_work_" w0.nextTemp ∉ (create_astrological_subject "Ann" 1990
      1 1 12 0 "Atlantis" "US" none none none none none engFail w0).2.1.dirs :=
  ⟨(C4_sandbox_restore.1 "Ann" 1990 1 1 12 0 "Atlantis" "US" none none none none none
      engFail w0).1,
   (C4_sandbox_restore.1 "Ann" 1990 1 1 12 0 "Atlantis" "US" none none none none none
      engFail w0).2.1 "TMPDIR",
   (C4_sandbox_restore.1 "Ann" 1990 1 1 12 0 "Atlantis" "US" none none none none none
      engFail w0).2.2.1 (by simp [w0])⟩

/-! ## C3: process state at the moment of each engine invocation -/

theorem create_event_state (name : String) (year month day hour minute : Int)
    (city nation : String) (longitude latitude : Option Rat)
    (tzStr zodiacType siderealMode : Option String) (eng : Engine) (w : World) :
    ∀ e ∈ (create_astrological_subject name year month day hour minute city nation
      longitude latitude tzStr zodiacType siderealMode eng w).2.2,
      e.cwd = mkTempName "kerykeion_work_" w.nextTemp
      ∧ ∀ k ∈ sandboxEnvKeys, e.env k = some (mkTempName "kerykeion_work_" w.nextTemp) := by
  intro e he
  simp only [create_astrological_subject, List.mem_singleton] at he
  subst he
  exact ⟨sandboxAcquire_cwd _ _, fun k hk => sandboxAcquire_env_mem _ _ _ hk⟩

theorem natal_event_state (name : String) (year month day hour minute : Int)
    (city nation : String) (longitude latitude : Option Rat)
    (tzStr : Option String) (eng : Engine) (w : World) :
    ∀ e ∈ (get_natal_aspects name year month day hour minute city nation
      longitude latitude tzStr eng w).2.2,
      e.cwd = mkTempName "kerykeion_natal_" w.nextTemp
      ∧ ∀ k ∈ sandboxEnvKeys, e.env k = some (mkTempName "kerykeion_natal_" w.nextTemp) := by
  intro e he
  simp only [get_natal_aspects, List.mem_singleton] at he
  subst he
  exact ⟨sandboxAcquire_cwd _ _, fun k hk => sandboxAcquire_env_mem _ _ _ hk⟩

set_option maxHeartbeats 1600000 in
theorem synastry_event_state (p1raw p2raw : Json) (eng : Engine) (w : World) :
    ∀ e ∈ (get_synastry_aspects p1raw p2raw eng w).2.2,
      e.cwd = mkTempName "kerykeion_synastry_" w.nextTemp ∧ ∀ x, e.env x = w.env x := by
  simp only [get_synastry_aspects]
  repeat' split
  all_goals intro e he
  all_goals simp only [List.mem_cons, List.not_mem_nil, or_false] at he
  all_goals
    first
      | (obtain rfl := he; exact ⟨rfl, fun x => rfl⟩)
      | (obtain rfl | rfl := he <;> exact ⟨rfl, fun x => rfl⟩)

set_option maxHeartbeats 1600000 in
theorem composite_event_state (p1raw p2raw : Json) (eng : Engine) (w : World) :
    ∀ e ∈ (create_composite_chart p1raw p2raw eng w).2.2,
      e.cwd = mkTempName "kerykeion_composite_" w.nextTemp ∧ ∀ x, e.env x = w.env x := by
  simp only [create_composite_chart]
  repeat' split
  all_goals intro e he
  all_goals simp only [List.mem_cons, List.not_mem_nil, or_false] at he
  all_goals
    first
      | (obtain rfl := he; exact ⟨rfl, fun x => rfl⟩)
      | (obtain rfl | rfl := he <;> exact ⟨rfl, fun x => rfl⟩)

/-- C3 (amended) — where each of the four chart operations stands when it
invokes the engine: `create_astrological_subject` and `get_natal_aspects`
run every engine invocation with the working directory changed into the
fresh temporary directory of the call and all six cache/temp environment
variables overwritten to point at it; `get_synastry_aspects` and
`create_composite_chart` run their engine invocations with the working
directory changed into their fresh temporary directory but with the
environment untouched — they never snapshot or overwrite any environment
variable. -/
theorem C3_engine_call_sandbox :
    (∀ (name : String) (year month day hour minute : Int) (city nation : String)
        (longitude latitude : Option Rat) (tzStr zodiacType siderealMode : Option String)
        (eng : Engine) (w : World),
        ∀ e ∈ (create_astrological_subject name year month day hour minute city nation
          longitude latitude tzStr zodiacType siderealMode eng w).2.2,
          e.cwd = mkTempName "kerykeion_work_" w.nextTemp
          ∧ ∀ k ∈ sandboxEnvKeys, e.env k = some (mkTempName "kerykeion_work_" w.nextTemp))
    ∧ (∀ (name : String) (year month day hour minute : Int) (city nation : String)
        (longitude latitude : Option Rat) (tzStr : Option String)
        (eng : Engine) (w : World),
        ∀ e ∈ (get_natal_aspects name year month day hour minute city nation
          longitude latitude tzStr eng w).2.2,
          e.cwd = mkTempName "kerykeion_natal_" w.nextTemp
          ∧ ∀ k ∈ sandboxEnvKeys, e.env k = some (mkTempName "kerykeion_natal_" w.nextTemp))
    ∧ (∀ (p1raw p2raw : Json) (eng : Engine) (w : World),
        ∀ e ∈ (get_synastry_aspects p1raw p2raw eng w).2.2,
          e.cwd = mkTempName "kerykeion_synastry_" w.nextTemp
          ∧ ∀ x, e.env x = w.env x)
    ∧ (∀ (p1raw p2raw : Json) (eng : Engine) (w : World),
        ∀ e ∈ (create_composite_chart p1raw p2raw eng w).2.2,
          e.cwd = mkTempName "kerykeion_composite_" w.nextTemp
          ∧ ∀ x, e.env x = w.env x) :=
  ⟨create_event_state, natal_event_state, synastry_event_state, composite_event_state⟩

/-! ## C2 / C3: concrete runs -/

/-- A well-formed person_data mapping with explicit coordinates. -/
def p1Json : Json :=
  .obj [("name", .str "A"), ("year", .num 1990), ("month", .num 1), ("day", .num 1),
    ("hour", .num 12), ("minute", .num 0), ("city", .str "X"), ("nation", .str "US"),
    ("longitude", .num 10), ("latitude", .num 20)]

/-- C3: the claim as frozen is false for `get_synastry_aspects` — at both of
its engine invocations in this run, `KERYKEION_CACHE_DIR` is still unset
(`none`), not overwritten to point at the temporary directory: the operation
never touches the environment. -/
theorem C3_counterexample :
    ((get_synastry_aspects p1Json p1Json engOk w0).2.2.map
      fun e => e.env "KERYKEION_CACHE_DIR") = [none, none] := rfl

/-- C2 — the divergence in `get_natal_aspects`: with the gazetteer resolving
北京 to latitude 39.9 and longitude 116.4, `get_natal_aspects` invokes the
engine with `lng = 39.9` (the resolved latitude) and `lat = 116.4` (the
resolved longitude) — the unpacking `longitude, latitude = coords` swaps the
pair — while `create_astrological_subject` on the same input invokes it with
`lng = 116.4` and `lat = 39.9` as the claim requires. -/
theorem C2_natal_coordinate_swap :
    ((get_natal_aspects "张三" 1990 1 1 12 0 "北京" "CN" none none none engOk wCN).2.2.map
      fun e => e.call) =
      [.byCoords "张三" 1990 1 1 12 0 ((399 : Rat)/10) ((1164 : Rat)/10)
        (some "Asia/Shanghai") "北京"]
    ∧ ((create_astrological_subject "张三" 1990 1 1 12 0 "北京" "CN" none none none
        none none engOk wCN).2.2.map fun e => e.call) =
      [.byCoords "张三" 1990 1 1 12 0 ((1164 : Rat)/10) ((399 : Rat)/10)
        (some "Asia/Shanghai") "北京"] := ⟨rfl, rfl⟩

/-! ## C1: the tools/call wrapper -/

def knownToolNames : List String :=
  ["get_current_time", "create_astrological_subject", "get_natal_aspects",
   "get_synastry_aspects", "create_composite_chart"]

/-- The operation a known tool name dispatches to, as `handle_tools_call`
invokes it. -/
def dispatchTool (n : String) (args : Json) (eng : Engine) (w : World) : Json × World :=
  if n = "get_current_time" then (get_current_time w, w)
  else if n = "create_astrological_subject" then callCreate args eng w
  else if n = "get_natal_aspects" then callNatal args eng w
  else if n = "get_synastry_aspects" then callSynastry args eng w
  else if n = "create_composite_chart" then callComposite args eng w
  else (Json.null, w)

/-- C1 (amended) — for every `tools/call` request naming one of the five
known tools (with a mapping-shaped `arguments`), the response wraps the
invoked operation's outcome as `text = JSON(outcome)` — but with
`isError: False` unconditionally: the source hard-codes `"isError": False`
in all five branches, so `isError` does not equal the negation of the
outcome's `success` flag when the operation fails. -/
theorem C1_known_tool_wrap :
    (∀ (rid outcome : Json),
        (wrapToolOk rid outcome).get "result" =
          some (.obj [("content", .arr [.obj [("type", .str "text"),
            ("text", .str outcome.dumps)]]), ("isError", .bool false)]))
    ∧ (∀ (eng : Engine) (w : World) (request : Json) (pf : List (String × Json))
        (n : String) (af : List (String × Json)),
        request.getD "params" (.obj []) = .obj pf →
        (Json.obj pf).get "name" = some (.str n) →
        n ∈ knownToolNames →
        (Json.obj pf).getD "arguments" (.obj []) = .obj af →
        handle_tools_call eng w request =
          .ok (wrapToolOk (request.getD "id" .null) (dispatchTool n (.obj af) eng w).1,
            (dispatchTool n (.obj af) eng w).2)) := by
  constructor
  · intro rid outcome; rfl
  · intro eng w request pf n af hpf hname hmem harg
    simp only [knownToolNames, List.mem_cons, List.not_mem_nil, or_false] at hmem
    rcases hmem with rfl | rfl | rfl | rfl | rfl <;>
      simp [handle_tools_call, hpf, hname, harg, Json.eqStr, dispatchTool]

/-- C1 — the claim as frozen is false: a `tools/call` of
`create_astrological_subject` whose engine invocation raises produces an
outcome with `success: false`, yet the emitted payload still has
`isError: false` (the claim requires `isError = true` there). -/
theorem C1_counterexample :
    ((serverStep engFail w0 (some (.obj [("jsonrpc", .str "2.0"),
        ("method", .str "tools/call"), ("id", .num 3),
        ("params", .obj [("name", .str "create_astrological_subject"),
          ("arguments", .obj [("name", .str "Ann"), ("year", .num 1990),
            ("month", .num 1), ("day", .num 1), ("hour", .num 12), ("minute", .num 0),
            ("city", .str "Atlantis"), ("nation", .str "US")])])]))).1.getD
      "result" .null).get "isError" = some (.bool false)
    ∧ (callCreate (.obj [("name", .str "Ann"), ("year", .num 1990), ("month", .num 1),
        ("day", .num 1), ("hour", .num 12), ("minute", .num 0),
        ("city", .str "Atlantis"), ("nation", .str "US")]) engFail w0).1.get "success" =
      some (.bool false) := ⟨rfl, rfl⟩

/-! ## C7: parse-error isolation -/

/-- C7 — a line that is not valid JSON gets exactly the
`{jsonrpc: "2.0", id: null, error: {code: -32700, message: "Parse error"}}`
response and never terminates the loop: every input line produces exactly one
response in order, every invalid line's response is the parse error, and an
invalid line followed by a valid `tools/list` line yields the parse error
followed by the correct tools/list response. -/
theorem C7_parse_error_isolation :
    (∀ (eng : Engine) (w : World) (lines : List ParsedLine),
        (serverRun eng w lines).length = lines.length)
    ∧ (∀ (eng : Engine) (w : World) (lines : List ParsedLine) (i : Nat),
        lines[i]? = some none →
        (serverRun eng w lines)[i]? = some parseErrorResponse)
    ∧ (∀ (eng : Engine) (w : World) (rid : Json),
        serverRun eng w
          [none, some (.obj [("method", .str "tools/list"), ("id", rid)])] =
        [parseErrorResponse,
          handleToolsList (.obj [("method", .str "tools/list"), ("id", rid)])]) := by
  refine ⟨?_, ?_, ?_⟩
  · intro eng w lines
    induction lines generalizing w with
    | nil => rfl
    | cons l rest ih => simp [serverRun, ih]
  · intro eng w lines i h
    induction lines generalizing w i with
    | nil => simp at h
    | cons l rest ih =>
      cases i with
      | zero =>
        simp only [List.getElem?_cons_zero, Option.some.injEq] at h
        subst h
        simp [serverRun, serverStep]
      | succ i =>
        simp only [List.getElem?_cons_succ] at h
        simp only [serverRun, List.getElem?_cons_succ]
        exact ih _ _ h
  · intro eng w rid
    rfl

/-! ## C8: the response envelope -/

/-- Exactly one of `result`/`error` is present. -/
def exactlyOneResultError (j : Json) : Bool :=
  ((j.get "result").isSome && (j.get "error").isNone) ||
  ((j.get "result").isNone && (j.get "error").isSome)

/-- When `params` is absent or a mapping, `handle_tools_call` succeeds and
its response echoes the request's `id` (absent echoed as `null`). -/
theorem handle_tools_call_ok_id (eng : Engine) (w : World) (request : Json)
    (hp : ∀ v, request.get "params" = some v → ∃ pf, v = Json.obj pf) :
    (handle_tools_call eng w request).map (fun rw => rw.1.get "id") =
      .ok (some ((request.get "id").getD .null)) := by
  rcases hlk : request.get "params" with _ | v
  · simp only [handle_tools_call, Json.getD, hlk, Option.getD_none]
    rfl
  · obtain ⟨pf, rfl⟩ := hp v hlk
    simp only [handle_tools_call, Json.getD, hlk, Option.getD_some]
    repeat' (first | rfl | split)

/-- `handle_tools_call` either raises (non-mapping `params`) or produces a
response with exactly one of `result`/`error`. -/
theorem handle_tools_call_result (eng : Engine) (w : World) (request : Json) :
    (∃ msg, handle_tools_call eng w request = .error msg) ∨
    (∃ r w2, handle_tools_call eng w request = .ok (r, w2) ∧
      exactlyOneResultError r = true) := by
  simp only [handle_tools_call]
  repeat' split
  all_goals first
    | exact .inl ⟨_, rfl⟩
    | exact .inr ⟨_, _, rfl, rfl⟩

/-- C8 (amended) — every response carries exactly one of `result`/`error`;
and for every line decoding to a JSON object whose `params` — consulted only
when the method is `tools/call` — is absent or itself a mapping, the response
`id` echoes `request.get("id")`, with an absent `id` echoed as `null`. (A
`tools/call` request whose `params` is a non-mapping raises before the
handler's `try`, so `main` answers it with an internal error whose `id` is
`null` even though the request carried an id — see the counterexample.) -/
theorem C8_envelope_id_echo :
    (∀ (eng : Engine) (w : World) (line : ParsedLine),
        exactlyOneResultError (serverStep eng w line).1 = true)
    ∧ (∀ (eng : Engine) (w : World) (fields : List (String × Json)),
        (∀ v, (Json.obj fields).get "params" = some v → ∃ pf, v = .obj pf) →
        (serverStep eng w (some (.obj fields))).1.get "id" =
          some (((Json.obj fields).get "id").getD .null)) := by
  constructor
  · intro eng w line
    simp only [serverStep]
    repeat' split
    all_goals first
      | rfl
      | (rename_i heq
         rcases handle_tools_call_result eng w (Json.obj _) with ⟨msg, hm⟩ | ⟨r, w2, hm, hshape⟩
         · rw [hm] at heq
           exact absurd heq (by simp)
         · rw [hm] at heq
           injection heq with h3
           subst h3
           exact hshape)
  · intro eng w fields hp
    have h2 := handle_tools_call_ok_id eng w (Json.obj fields) hp
    simp only [serverStep]
    repeat' (first | rfl | split)
    all_goals rename_i heq
    all_goals rw [heq] at h2
    all_goals simp only [Except.map] at h2
    all_goals
      first
        | exact Except.ok.inj h2
        | exact absurd h2 (by simp)

/-- C8 — the claim as frozen is false: the request
`{"method": "tools/call", "id": 1, "params": 5}` decodes to a JSON object (a
valid request), yet its response has `id: null` — `params.get` raises before
`handle_tools_call`'s `try`, and `main`'s internal-error branch hard-codes
`id: None` — so the response id does not echo the request's id `1`, and a
null response id occurs without any envelope-level decode failure. -/
theorem C8_counterexample :
    (serverStep engOk w0 (some (.obj [("method", .str "tools/call"), ("id", .num 1),
      ("params", .num 5)]))).1.get "id" = some .null
    ∧ (Json.obj [("method", .str "tools/call"), ("id", .num 1),
        ("params", .num 5)]).get "id" = some (.num 1) := ⟨rfl, rfl⟩

end MCPK
